import Mathlib

/-!
Verification of the ADIN2111 dual-port Ethernet switch/PHY repository.

This file gives a shallow embedding in Lean 4 of the code regions named by the
claims, translated from the C sources:

* `src/qemu/hw/net/adin2111.c` — the base QEMU device model (register file,
  SPI transfer state machine, receive/forward path);
* `src/qemu/hw/net/adin2111_hybrid.c` — the hybrid QEMU model (MAC learning
  table with aging, hardware forwarding, SPI transfer);
* `src/drivers/net/ethernet/adi/adin2111/adin2111_netdev.c` — the driver RX
  handler;
* `src/drivers/net/ethernet/adi/adin2111/adin2111.c` — the driver soft-reset
  poll loop;
* `src/test-build/adin2111_netdev_correct.c` — the ring-buffer TX pipeline.

Machine integers are modelled as `Nat` with explicit `% 2^w` where C overflow
or truncation matters.  Stateful C code becomes explicit state passing.
-/

namespace Adin2111

/-! ## Constants from `src/qemu-old-backup/include/hw/net/adin2111.h` -/

def ADIN2111_REG_COUNT : Nat := 0x400

def ADIN2111_REG_CHIP_ID : Nat := 0x0000
def ADIN2111_REG_SCRATCH : Nat := 0x0001
def ADIN2111_REG_RESET_CTL : Nat := 0x0002
def ADIN2111_REG_DEVICE_STATUS : Nat := 0x0003
def ADIN2111_REG_INT_STATUS : Nat := 0x0004
def ADIN2111_REG_INT_MASK : Nat := 0x0005
def ADIN2111_REG_SWITCH_CONFIG : Nat := 0x0040
def ADIN2111_REG_PORT1_STATUS : Nat := 0x0081
def ADIN2111_REG_PORT2_STATUS : Nat := 0x00A1

def ADIN2111_SPI_READ : Nat := 0x80000000
def ADIN2111_SPI_WRITE : Nat := 0x00000000

def ADIN2111_RESET_SOFT : Nat := 0x00000001

def ADIN2111_STATUS_READY : Nat := 0x00000001
def ADIN2111_STATUS_LINK1_UP : Nat := 0x00000002
def ADIN2111_STATUS_LINK2_UP : Nat := 0x00000004

def ADIN2111_INT_RX1 : Nat := 0x00000008
def ADIN2111_INT_RX2 : Nat := 0x00000010

/-! ## Base device model state (`ADIN2111State` in `src/qemu/hw/net/adin2111.c`)

The register array `uint32_t regs[ADIN2111_REG_COUNT]` is modelled as a total
function `Nat → Nat`; the code only ever stores at indices below
`ADIN2111_REG_COUNT`, so a write that leaves the function unchanged models
"no storage is created".  NIC presence (`s->nic[i]` non-NULL) and link state
(`qemu_get_queue(..)->link_down`) are carried as boolean fields. -/

inductive SpiState where
  | idle
  | cmd
  | addrHigh
  | addrLow
  | data
deriving DecidableEq, Repr

structure DevState where
  regs : Nat → Nat
  reset_active : Bool
  cut_through_mode : Bool
  switch_enabled : Bool
  spi_cmd : Nat
  spi_addr : Nat
  spi_state : SpiState
  int_status : Nat
  int_mask : Nat
  nic_present : Nat → Bool
  link_down : Nat → Bool
  rx_packets : Nat → Nat
  tx_packets : Nat → Nat
  rx_bytes : Nat → Nat
  tx_bytes : Nat → Nat

/-- `adin2111_reg_read` (src/qemu/hw/net/adin2111.c:90-141).  The C switch is
rendered as an if-chain over the distinct case labels; the default case reads
the array when `addr < ADIN2111_REG_COUNT` and otherwise logs a guest error
and leaves `val` at its initialiser `0`. -/
def adin2111_reg_read (s : DevState) (addr : Nat) : Nat :=
  if addr = ADIN2111_REG_CHIP_ID then 0x2111
  else if addr = ADIN2111_REG_DEVICE_STATUS then
    (if s.reset_active then 0 else ADIN2111_STATUS_READY)
    ||| (if s.nic_present 0 && !s.link_down 0 then ADIN2111_STATUS_LINK1_UP else 0)
    ||| (if s.nic_present 1 && !s.link_down 1 then ADIN2111_STATUS_LINK2_UP else 0)
  else if addr = ADIN2111_REG_INT_STATUS then s.int_status
  else if addr = ADIN2111_REG_INT_MASK then s.int_mask
  else if addr = ADIN2111_REG_SWITCH_CONFIG then
    (if s.cut_through_mode then 0x01 else 0x00)
    ||| (if s.switch_enabled then 0x10 else 0x00)
  else if addr = ADIN2111_REG_PORT1_STATUS then
    (if s.nic_present 0 && !s.link_down 0 then 0x01 else 0x00)
  else if addr = ADIN2111_REG_PORT2_STATUS then
    (if s.nic_present 1 && !s.link_down 1 then 0x01 else 0x00)
  else if addr < ADIN2111_REG_COUNT then s.regs addr
  else 0

/-- `adin2111_reg_write` (src/qemu/hw/net/adin2111.c:144-182).  The
`INT_STATUS` case implements write-1-to-clear with the 32-bit complement
`~val`; the `RESET_CTL` case arms the reset flag; a write to an address at or
beyond `ADIN2111_REG_COUNT` only logs and changes nothing. -/
def adin2111_reg_write (s : DevState) (addr val : Nat) : DevState :=
  if addr = ADIN2111_REG_SCRATCH then
    { s with regs := Function.update s.regs addr val }
  else if addr = ADIN2111_REG_RESET_CTL then
    if val &&& ADIN2111_RESET_SOFT ≠ 0 then { s with reset_active := true } else s
  else if addr = ADIN2111_REG_INT_MASK then
    { s with int_mask := val }
  else if addr = ADIN2111_REG_INT_STATUS then
    { s with int_status := s.int_status &&& (0xFFFFFFFF ^^^ (val % 2 ^ 32)) }
  else if addr = ADIN2111_REG_SWITCH_CONFIG then
    { s with cut_through_mode := val &&& 0x01 ≠ 0,
             switch_enabled := val &&& 0x10 ≠ 0 }
  else if addr < ADIN2111_REG_COUNT then
    { s with regs := Function.update s.regs addr val }
  else s

/-- `adin2111_transfer` (src/qemu/hw/net/adin2111.c:185-230): the SPI byte
state machine.  Returns the response word together with the successor state.
During an active reset it returns `0xFFFFFFFF` before touching anything.
`val << 8` is a `uint32_t` shift, hence the `% 2^32`.  Note the source tests
`spi_cmd & ADIN2111_SPI_WRITE` with `ADIN2111_SPI_WRITE = 0`, which is
faithfully reproduced. -/
def adin2111_transfer (s : DevState) (val : Nat) : Nat × DevState :=
  if s.reset_active then (0xFFFFFFFF, s)
  else
    match s.spi_state with
    | .idle | .cmd =>
        (0, { s with spi_cmd := val, spi_state := .addrHigh })
    | .addrHigh =>
        (0, { s with spi_addr := (val <<< 8) % 2 ^ 32, spi_state := .addrLow })
    | .addrLow =>
        let s2 := { s with spi_addr := s.spi_addr ||| val, spi_state := .data }
        if s.spi_cmd &&& ADIN2111_SPI_READ ≠ 0 then
          (adin2111_reg_read s2 s2.spi_addr, s2)
        else (0, s2)
    | .data =>
        if s.spi_cmd &&& ADIN2111_SPI_WRITE ≠ 0 then
          (0, adin2111_reg_write s s.spi_addr val)
        else (adin2111_reg_read s s.spi_addr, s)

/-- `adin2111_receive` (src/qemu/hw/net/adin2111.c:233-275).  Returns the
successor state and the list of egress ports the frame is sent to (the
"target port set").  Statistics are bumped before the reset check, exactly as
in the source; forwarding happens iff the switch is enabled and the opposite
NIC exists; the cut-through flag only scales the (unused) latency value. -/
def adin2111_receive (s : DevState) (port size : Nat) : DevState × List Nat :=
  let other := 1 - port
  let s := { s with
               rx_packets := Function.update s.rx_packets port (s.rx_packets port + 1),
               rx_bytes := Function.update s.rx_bytes port (s.rx_bytes port + size) }
  if s.reset_active then (s, [])
  else
    let (s, targets) :=
      if s.switch_enabled && s.nic_present other then
        ({ s with
             tx_packets := Function.update s.tx_packets other (s.tx_packets other + 1),
             tx_bytes := Function.update s.tx_bytes other (s.tx_bytes other + size) },
         [other])
      else (s, [])
    let s := { s with
                 int_status := s.int_status |||
                   (if port = 0 then ADIN2111_INT_RX1 else ADIN2111_INT_RX2) }
    (s, targets)

end Adin2111

namespace Hybrid

/-! ## Hybrid model (`src/qemu/hw/net/adin2111_hybrid.c`)

MAC learning table with aging, hardware forwarding, and the 3-phase SPI state
machine.  `spi_addr` is a `uint16_t` in the source, hence the `% 2^16` on the
high-byte shift.  The 256-entry `mac_table` array is modelled as a total
function; every access goes through `mac_hash`, whose value is `< 256`. -/

def MAC_TABLE_SIZE : Nat := 256
def MAC_AGE_TIME_NS : Int := 5 * 60 * 1000000000

def ADIN1110_CONFIG2 : Nat := 0x06
def ADIN2111_PORT_CUT_THRU_EN : Nat := 2 ^ 11

/-- A 6-byte Ethernet MAC address (`uint8_t addr[ETH_ALEN]`). -/
structure Mac where
  b0 : Nat
  b1 : Nat
  b2 : Nat
  b3 : Nat
  b4 : Nat
  b5 : Nat
deriving DecidableEq, Repr

/-- `is_broadcast_ether_addr` (adin2111_hybrid.c:130-133): the bitwise AND of
all six bytes equals `0xff`. -/
def is_broadcast_ether_addr (m : Mac) : Bool :=
  ((((m.b0 &&& m.b1) &&& m.b2) &&& m.b3) &&& m.b4) &&& m.b5 == 0xff

/-- `is_multicast_ether_addr` (adin2111_hybrid.c:135-138): lowest bit of the
first byte. -/
def is_multicast_ether_addr (m : Mac) : Bool :=
  m.b0 &&& 0x01 != 0

/-- `mac_hash` (adin2111_hybrid.c:141-148): `hash = (hash << 5) + hash + b`
in `uint32_t` arithmetic, folded over the six bytes, then `% MAC_TABLE_SIZE`. -/
def mac_hash (m : Mac) : Nat :=
  ([m.b0, m.b1, m.b2, m.b3, m.b4, m.b5].foldl
    (fun hash b => ((hash <<< 5) + hash + b) % 2 ^ 32) 0) % MAC_TABLE_SIZE

/-- The hybrid SPI phases `SPI_IDLE/SPI_CMD/SPI_ADDR/SPI_DATA`
(adin2111_hybrid.c:107-112). -/
inductive SpiPhase where
  | idle
  | cmd
  | addr
  | data
deriving DecidableEq, Repr

/-- `MacEntry` (adin2111_hybrid.c:58-63). -/
structure MacEntry where
  addr : Mac
  port : Nat
  timestamp : Int
  valid : Bool
deriving DecidableEq, Repr

/-- The slice of `ADIN2111HybridState` touched by the embedded operations.
`phy_present i` models `s->phy_nic[i] != NULL`. -/
structure HState where
  hardware_forwarding_enabled : Bool
  mac_table : Nat → MacEntry
  regs : Nat → Nat
  spi_state : SpiPhase
  spi_cmd : Nat
  spi_addr : Nat
  phy_present : Nat → Bool
  tx_packets : Nat → Nat
  tx_bytes : Nat → Nat

/-- `adin2111_learn_mac` (adin2111_hybrid.c:151-167): unconditionally upserts
the entry at the hash bucket with the current virtual-clock time. -/
def adin2111_learn_mac (s : HState) (mac : Mac) (port : Nat) (now : Int) : HState :=
  { s with
      mac_table := Function.update s.mac_table (mac_hash mac)
        ({ addr := mac, port := port, timestamp := now, valid := true }) }

/-- `adin2111_lookup_mac` (adin2111_hybrid.c:170-191).  Returns the port (the
C `-1` becomes `none`) and the successor state: when the entry has aged past
`MAC_AGE_TIME_NS` the lookup itself invalidates it. -/
def adin2111_lookup_mac (s : HState) (mac : Mac) (now : Int) :
    Option Nat × HState :=
  let idx := mac_hash mac
  let entry := s.mac_table idx
  if !entry.valid then (none, s)
  else if entry.addr ≠ mac then (none, s)
  else if now - entry.timestamp > MAC_AGE_TIME_NS then
    (none, { s with
               mac_table := Function.update s.mac_table idx
                 ({ entry with valid := false }) })
  else (some entry.port, s)

/-- `adin2111_forward_packet` (adin2111_hybrid.c:194-246).  `dst`/`src` are
the frame's Ethernet header fields, `size` the frame length.  Returns the
successor state and the list of PHY ports the frame is re-emitted on. -/
def adin2111_forward_packet (s : HState) (src_port : Nat) (dst src : Mac)
    (size : Nat) (now : Int) : HState × List Nat :=
  if !s.hardware_forwarding_enabled then (s, [])
  else
    let s := adin2111_learn_mac s src src_port now
    let step : Option (HState × Nat) :=
      if is_broadcast_ether_addr dst || is_multicast_ether_addr dst then
        some (s, if src_port = 0 then 1 else 0)
      else
        match adin2111_lookup_mac s dst now with
        | (none, s) => some (s, if src_port = 0 then 1 else 0)
        | (some p, s) => if p = src_port then none else some (s, p)
    match step with
    | none => (s, [])
    | some (s, dst_port) =>
        if s.phy_present dst_port then
          ({ s with
               tx_packets := Function.update s.tx_packets dst_port
                 (s.tx_packets dst_port + 1),
               tx_bytes := Function.update s.tx_bytes dst_port
                 (s.tx_bytes dst_port + size) },
           [dst_port])
        else (s, [])

/-- `adin2111_transfer` (adin2111_hybrid.c:350-396), the hybrid SPI state
machine.  In the data phase, a write (`spi_cmd & 0x02`) stores into
`regs[spi_addr]` and — when the address is `CONFIG2` and the written value has
the cut-through-enable bit — switches hardware forwarding on. -/
def hybrid_transfer (s : HState) (val : Nat) : Nat × HState :=
  match s.spi_state with
  | .cmd =>
      (0, { s with spi_cmd := val, spi_state := .addr })
  | .addr =>
      if s.spi_addr = 0 then
        (0, { s with spi_addr := (val <<< 8) % 2 ^ 16 })
      else
        (0, { s with spi_addr := s.spi_addr ||| val, spi_state := .data })
  | .data =>
      if s.spi_cmd &&& 0x02 ≠ 0 then
        let s := { s with regs := Function.update s.regs s.spi_addr val }
        let s :=
          if s.spi_addr = ADIN1110_CONFIG2 ∧ val &&& ADIN2111_PORT_CUT_THRU_EN ≠ 0 then
            { s with hardware_forwarding_enabled := true }
          else s
        (0, { s with spi_state := .idle })
      else
        (s.regs s.spi_addr, { s with spi_state := .idle })
  | .idle =>
      (0, { s with spi_state := .cmd })

end Hybrid

namespace Netdev

/-! ## Driver RX handler (`adin2111_rx_handler`,
`src/drivers/net/ethernet/adi/adin2111/adin2111_netdev.c:245-321`)

The transport (`adin2111_read_reg` / `adin2111_read_fifo`) is supplied as
`Except` results; a nonzero C return code becomes `Except.error`.  Allocation
successes (`kmalloc`, `netdev_alloc_skb`) are boolean parameters. -/

def ADIN2111_MAX_FRAME_SIZE : Nat := 1518
def ADIN2111_FRAME_HEADER_LEN : Nat := 2
def ADIN2111_MAX_PORTS : Nat := 2

/-- Modelled from the spec: `ADIN2111_FRAME_HEADER_PORT_MASK` lives in
`adin2111_regs.h`, which is not present under `src/`; per the spec's frame
header layout the high bits of the 16-bit header carry the destination-port
selector (the TX side shifts the port index to bit 12). -/
def ADIN2111_FRAME_HEADER_PORT_MASK : Nat := 0x3 <<< 12

/-- Per-port statistics slice of `struct rtnl_link_stats64` as used here. -/
structure PortStats where
  rx_packets : Nat
  rx_bytes : Nat
  rx_errors : Nat
  rx_dropped : Nat
deriving DecidableEq, Repr

/-- Outcome of one `adin2111_rx_handler` call: the per-port statistics after
the call, whether a FIFO data read was issued, and the delivered frame's
payload (header stripped), if any. -/
structure RxOutcome where
  stats : Nat → PortStats
  fifo_read : Bool
  delivered : Option (Nat × List Nat)

/-- `adin2111_rx_handler`.  `fsize` is the result of the `ADIN2111_RX_FSIZE`
register read; `fifo n` the result of the `n`-byte FIFO read; `kmallocOk` and
`skbAllocOk` the two allocations; `ports_present i` models
`priv->ports[i] != NULL`.  Statistics live in `stats` indexed by port number
(the non-switch-mode single netdev is port 0). -/
def adin2111_rx_handler (fsize : Except Int Nat) (fifo : Nat → Except Int (List Nat))
    (kmallocOk skbAllocOk : Bool) (switch_mode : Bool) (ports_present : Nat → Bool)
    (stats : Nat → PortStats) : RxOutcome :=
  match fsize with
  | .error _ => { stats := stats, fifo_read := false, delivered := none }
  | .ok rx_fsize =>
    if rx_fsize = 0 then { stats := stats, fifo_read := false, delivered := none }
    else
      let frame_size := rx_fsize &&& 0x7FF
      if frame_size < ADIN2111_FRAME_HEADER_LEN ∨
         frame_size > ADIN2111_MAX_FRAME_SIZE + ADIN2111_FRAME_HEADER_LEN then
        { stats := stats, fifo_read := false, delivered := none }
      else if !kmallocOk then
        { stats := stats, fifo_read := false, delivered := none }
      else
        match fifo frame_size with
        | .error _ => { stats := stats, fifo_read := true, delivered := none }
        | .ok frame_buf =>
          let frame_header := ((frame_buf.headD 0) <<< 8) ||| frame_buf.tail.headD 0
          let port_mask := (frame_header &&& ADIN2111_FRAME_HEADER_PORT_MASK) >>> 12
          let port_num : Option Nat :=
            if switch_mode then
              let p := if port_mask &&& 2 ≠ 0 then 1 else 0
              if p ≥ ADIN2111_MAX_PORTS ∨ !ports_present p then none else some p
            else some 0
          match port_num with
          | none => { stats := stats, fifo_read := true, delivered := none }
          | some p =>
            if !skbAllocOk then
              { stats := Function.update stats p
                  ({ stats p with rx_dropped := (stats p).rx_dropped + 1 }),
                fifo_read := true, delivered := none }
            else
              let payload := frame_buf.drop ADIN2111_FRAME_HEADER_LEN
              let skb_len := frame_size - ADIN2111_FRAME_HEADER_LEN
              { stats := Function.update stats p
                  ({ stats p with
                       rx_packets := (stats p).rx_packets + 1,
                       rx_bytes := (stats p).rx_bytes + skb_len }),
                fifo_read := true, delivered := some (p, payload) }

end Netdev

namespace TxRing

/-! ## Test-build TX ring (`src/test-build/adin2111_netdev_correct.c`)

`tx_head` (producer, `ndo_start_xmit`) and `tx_tail` (consumer, TX worker)
are `unsigned int` counters advancing monotonically; slots are addressed
modulo `TX_RING_SIZE`.  The counters are modelled as unbounded `Nat` (the C
`unsigned` wrap at `2^32` is invisible to the `& (TX_RING_SIZE-1)` ring
arithmetic because `TX_RING_SIZE` divides `2^32`). -/

def TX_RING_SIZE : Nat := 16
def MAX_FRAME_SIZE : Nat := 1518

/-- Linux `CIRC_SPACE(head, tail, size)` = `((tail) - ((head)+1)) & ((size)-1)`
in unsigned arithmetic; rendered with integer `emod` (nonnegative for the
positive literal modulus). -/
def CIRC_SPACE (head tail size : Nat) : Nat :=
  (((tail : Int) - ((head : Int) + 1)) % (size : Int)).toNat

/-- One TX ring slot: `struct tx_ring_entry {skb, port}`; `none` is the NULL
skb. -/
structure XmitState where
  tx_head : Nat
  tx_tail : Nat
  slots : Nat → Option (Nat × Nat)
  queue_stopped : Bool
  tx_dropped : Nat
  tx_errors : Nat
  tx_packets : Nat
  tx_bytes : Nat

inductive TxResult where
  | tx_ok
  | tx_busy
deriving DecidableEq, Repr

/-- A register-file transaction issued to the transport. -/
inductive TOp where
  | readReg (reg : Nat)
  | writeFifo (reg : Nat) (len : Nat)
deriving DecidableEq, Repr

/-- `adin2111_start_xmit` (adin2111_netdev_correct.c:143-184): the
non-sleeping fast path.  Returns the netdev result, the successor state, and
the (always empty) list of transport operations it issued — the function
never touches the SPI transport. -/
def adin2111_start_xmit (st : XmitState) (skb_len port : Nat) :
    TxResult × XmitState × List TOp :=
  if skb_len > MAX_FRAME_SIZE then
    (.tx_ok, { st with tx_dropped := st.tx_dropped + 1 }, [])
  else
    let head := st.tx_head
    let tail := st.tx_tail
    if CIRC_SPACE head tail TX_RING_SIZE < 1 then
      (.tx_busy, { st with queue_stopped := true }, [])
    else
      let st := { st with
                    slots := Function.update st.slots (head % TX_RING_SIZE)
                      (some (skb_len, port)),
                    tx_head := head + 1 }
      let st :=
        if CIRC_SPACE st.tx_head tail TX_RING_SIZE < 2 then
          { st with queue_stopped := true }
        else st
      (.tx_ok, st, [])

/-- One iteration of the `adin2111_tx_worker` drain loop
(adin2111_netdev_correct.c:58-140).  `tx_space_ok` is the outcome of the
`ADIN2111_TX_SPACE` check (read success and enough room), `write_ok` whether
the two FIFO writes succeeded.  An empty ring, a NULL skb, or a failed space
check leave the indices unchanged (the loop breaks); otherwise the entry is
consumed and `tx_tail` advances by one, with stats updated per the branch. -/
def adin2111_tx_worker_step (st : XmitState) (tx_space_ok write_ok : Bool) :
    XmitState :=
  if st.tx_tail = st.tx_head then st
  else
    match st.slots (st.tx_tail % TX_RING_SIZE) with
    | none => st
    | some (len, _) =>
      if !tx_space_ok then st
      else
        let st :=
          if write_ok then
            { st with tx_packets := st.tx_packets + 1, tx_bytes := st.tx_bytes + len }
          else
            { st with tx_errors := st.tx_errors + 1 }
        let tail := st.tx_tail
        let st := { st with
                      slots := Function.update st.slots (tail % TX_RING_SIZE) none,
                      tx_tail := tail + 1 }
        if st.queue_stopped ∧
           CIRC_SPACE st.tx_head st.tx_tail TX_RING_SIZE ≥ TX_RING_SIZE / 2 then
          { st with queue_stopped := false }
        else st

/-- An observation-point-generating operation on the TX ring: a producer call
or one consumer iteration. -/
inductive RingOp where
  | xmit (skb_len port : Nat)
  | work (tx_space_ok write_ok : Bool)
deriving DecidableEq, Repr

def ringStep (st : XmitState) (op : RingOp) : XmitState :=
  match op with
  | .xmit len port => (adin2111_start_xmit st len port).2.1
  | .work sp wr => adin2111_tx_worker_step st sp wr

/-- The empty ring the device starts from (adin2111_netdev_correct.c:464-465). -/
def initXmitState : XmitState :=
  { tx_head := 0, tx_tail := 0, slots := fun _ => none, queue_stopped := false,
    tx_dropped := 0, tx_errors := 0, tx_packets := 0, tx_bytes := 0 }

def runRing (ops : List RingOp) : XmitState :=
  ops.foldl ringStep initXmitState

end TxRing

namespace SoftReset

/-! ## Driver soft reset (`adin2111_soft_reset`,
`src/drivers/net/ethernet/adi/adin2111/adin2111.c:105-129`)

The poll loop reads the reset register until the self-clearing `SWRESET` bit
reads back clear, sleeping `usleep_range(100, 200)` microseconds between
polls, bounded by `jiffies`-based deadline `ADIN2111_RESET_TIMEOUT_MS`.  Time
is modelled in microseconds; each iteration advances the clock by
`100 + extra k` (the guaranteed minimum sleep plus scheduling slack). -/

/-- Modelled from the spec: `ADIN2111_RESET_SWRESET` is defined in
`adin2111_regs.h`, which is not present under `src/`; it is the self-clearing
soft-reset bit whose reading back clear signals that the device is ready. -/
def ADIN2111_RESET_SWRESET : Nat := 0x00000001

/-- Linux `-ETIMEDOUT`. -/
def ETIMEDOUT : Int := 110

/-- The do-while poll loop of `adin2111_soft_reset`.  `readReset k` is the
`k`-th `adin2111_read_reg(priv, ADIN2111_RESET, &val)`; an `Except.error e`
propagates the transport failure.  Returns the C result code together with
the number of register polls issued. -/
def soft_reset_poll (readReset : Nat → Except Int Nat) (extra : Nat → Nat)
    (deadline : Nat) (now : Nat) (k : Nat) : Int × Nat :=
  match readReset k with
  | .error e => (e, 1)
  | .ok v =>
    if v &&& ADIN2111_RESET_SWRESET = 0 then (0, 1)
    else
      let now2 := now + 100 + extra k
      if now2 < deadline then
        let rc := soft_reset_poll readReset extra deadline now2 (k + 1)
        (rc.1, rc.2 + 1)
      else (-ETIMEDOUT, 1)
  termination_by deadline - now
  decreasing_by
    simp_wf
    omega

end SoftReset

/-! ## Concrete states used by counterexamples and witnesses -/

open Adin2111 Hybrid Netdev TxRing SoftReset

/-- A base-model device state with every register slot holding 7, out of
reset, both NICs present with links up. -/
def devState7 : DevState :=
  { regs := fun _ => 7, reset_active := false, cut_through_mode := false,
    switch_enabled := false, spi_cmd := 0, spi_addr := 0, spi_state := .idle,
    int_status := 0, int_mask := 0, nic_present := fun _ => true,
    link_down := fun _ => false, rx_packets := fun _ => 0,
    tx_packets := fun _ => 0, rx_bytes := fun _ => 0, tx_bytes := fun _ => 0 }

/-- A base-model device state with an active soft reset and nonzero
transaction/interrupt state. -/
def devStateResetting : DevState :=
  { regs := fun _ => 3, reset_active := true, cut_through_mode := true,
    switch_enabled := true, spi_cmd := 0x80000000, spi_addr := 0x41,
    spi_state := .data, int_status := 0x1F, int_mask := 0xFF,
    nic_present := fun _ => true, link_down := fun _ => false,
    rx_packets := fun _ => 0, tx_packets := fun _ => 0,
    rx_bytes := fun _ => 0, tx_bytes := fun _ => 0 }

/-- The all-zero MAC entry a `memset` table starts with. -/
def zeroEntry : MacEntry :=
  { addr := ⟨0, 0, 0, 0, 0, 0⟩, port := 0, timestamp := 0, valid := false }

/-- A hybrid-model state with forwarding disabled, an empty MAC table, both
PHY ports present, with the SPI machine in the data phase of a write command
addressed at `CONFIG2`. -/
def hStateCfgWrite : HState :=
  { hardware_forwarding_enabled := false, mac_table := fun _ => zeroEntry,
    regs := fun _ => 0, spi_state := .data, spi_cmd := 0x02, spi_addr := 0x06,
    phy_present := fun _ => true, tx_packets := fun _ => 0,
    tx_bytes := fun _ => 0 }

/-- The state after the `CONFIG2` write carrying the cut-through-enable bit. -/
def hStateCutThru : HState :=
  (hybrid_transfer hStateCfgWrite (2 ^ 11)).2

def macBroadcast : Mac := ⟨0xff, 0xff, 0xff, 0xff, 0xff, 0xff⟩

def macSrcA : Mac := ⟨0x02, 0x22, 0x22, 0x22, 0x22, 0x22⟩

def macDstB : Mac := ⟨0x04, 0x44, 0x44, 0x44, 0x44, 0x44⟩

/-! ## Claim theorems -/

/-- Claim C1, counterexample.  The claim says a read of an address outside the
declared register space "fails with an InvalidRegister error" and "never
silently returns zero".  But `adin2111_reg_read` has no error channel at all:
at address `0x400` (the first address past `ADIN2111_REG_COUNT`) it returns
the plain value `0`, even though the backing store holds `7` everywhere — the
zero is fabricated, not an error and not storage. -/
theorem claim_C1_counterexample :
    adin2111_reg_read devState7 0x400 = 0 ∧ ADIN2111_REG_COUNT ≤ 0x400 ∧
      devState7.regs 0x400 = 7 := by
  refine ⟨by decide, by decide, rfl⟩

/-- Claim C1, amended: for every register address at or beyond
`ADIN2111_REG_COUNT`, a register read returns `0` (logging a guest error, with
no `InvalidRegister` error surfaced and no panic) and a register write is
discarded, leaving the whole device state — in particular the register
store — unchanged, so no storage is ever created at such an address. -/
theorem claim_C1_theorem (s : DevState) (addr val : Nat)
    (h : ADIN2111_REG_COUNT ≤ addr) :
    adin2111_reg_read s addr = 0 ∧ adin2111_reg_write s addr val = s := by
  simp only [ADIN2111_REG_COUNT] at h
  constructor
  · simp only [adin2111_reg_read, ADIN2111_REG_CHIP_ID, ADIN2111_REG_DEVICE_STATUS,
      ADIN2111_REG_INT_STATUS, ADIN2111_REG_INT_MASK, ADIN2111_REG_SWITCH_CONFIG,
      ADIN2111_REG_PORT1_STATUS, ADIN2111_REG_PORT2_STATUS, ADIN2111_REG_COUNT]
    split_ifs <;> omega
  · simp only [adin2111_reg_write, ADIN2111_REG_SCRATCH, ADIN2111_REG_RESET_CTL,
      ADIN2111_REG_INT_MASK, ADIN2111_REG_INT_STATUS, ADIN2111_REG_SWITCH_CONFIG,
      ADIN2111_REG_COUNT]
    split_ifs <;> first | rfl | omega

/-- Claim C1, witness: the amended theorem applied at address `0x400`. -/
theorem claim_C1_witness :
    adin2111_reg_read devState7 0x400 = 0 ∧
      adin2111_reg_write devState7 0x400 5 = devState7 :=
  claim_C1_theorem devState7 0x400 5 (by decide)

/-- Claim C10: while a soft reset is in progress (`reset_active`), every SPI
bus transfer returns the all-ones word `0xFFFFFFFF` and the entire device
state — register file, SPI transaction state machine, interrupt status and
mask — is returned unchanged; no read or write takes effect. -/
theorem claim_C10_theorem (s : DevState) (val : Nat)
    (h : s.reset_active = true) :
    adin2111_transfer s val = (0xFFFFFFFF, s) := by
  simp [adin2111_transfer, h]

/-- Claim C10, witness: a transfer against a resetting device with nonzero
registers, a mid-transaction SPI machine, and pending interrupts. -/
theorem claim_C10_witness :
    adin2111_transfer devStateResetting 0x42 = (0xFFFFFFFF, devStateResetting) :=
  claim_C10_theorem devStateResetting 0x42 rfl

/-- Claim C5: a write of `v` to the interrupt-status register clears exactly
the bits set in `v` (write-1-to-clear, `int_status &= ~val`) and leaves every
other bit of the stored status — and the rest of the register file —
unchanged; in particular a status write never blindly clears the whole
register. -/
theorem claim_C5_theorem (s : DevState) (v i : Nat) (hi : i < 32) :
    ((adin2111_reg_write s ADIN2111_REG_INT_STATUS v).int_status.testBit i
      = (s.int_status.testBit i && !(v.testBit i)))
    ∧ (adin2111_reg_write s ADIN2111_REG_INT_STATUS v).regs = s.regs := by
  simp only [adin2111_reg_write, ADIN2111_REG_SCRATCH, ADIN2111_REG_RESET_CTL,
    ADIN2111_REG_INT_MASK, ADIN2111_REG_INT_STATUS, ADIN2111_REG_SWITCH_CONFIG,
    ADIN2111_REG_COUNT]
  norm_num
  have ht : Nat.testBit 4294967295 i = true := by
    have h32 : (4294967295 : Nat) = 2 ^ 32 - 1 := by norm_num
    rw [h32, Nat.testBit_two_pow_sub_one]
    simp [hi]
  have hm : (v % 4294967296).testBit i = v.testBit i := by
    have h32 : (4294967296 : Nat) = 2 ^ 32 := by norm_num
    rw [h32, Nat.testBit_mod_two_pow]
    simp [hi]
  rw [ht, hm]
  cases v.testBit i <;> simp

/-- Claim C5, witness: writing `0b0110` to a status holding `0b1010` clears
bit 1, keeps bit 3. -/
theorem claim_C5_witness :
    ((adin2111_reg_write { devState7 with int_status := 0b1010 }
        ADIN2111_REG_INT_STATUS 0b0110).int_status.testBit 3
      = (((0b1010 : Nat)).testBit 3 && !((0b0110 : Nat)).testBit 3))
    ∧ (adin2111_reg_write { devState7 with int_status := 0b1010 }
        ADIN2111_REG_INT_STATUS 0b0110).regs = devState7.regs :=
  claim_C5_theorem { devState7 with int_status := 0b1010 } 0b0110 3 (by decide)

/-- Claim C2, counterexample.  The claim says the cut-through setting never
alters which ports receive a frame.  In the hybrid model the CONFIG2
cut-through-enable bit doubles as the hardware-forwarding enable: with the
bit unwritten a broadcast frame entering PHY port 0 is re-emitted nowhere,
after the single SPI data-phase write of `CUT_THRU_EN` the same frame is
re-emitted on port 1 — the target port set changes from `[]` to `[1]`. -/
theorem claim_C2_counterexample :
    hStateCfgWrite.hardware_forwarding_enabled = false ∧
    hStateCutThru.hardware_forwarding_enabled = true ∧
    (adin2111_forward_packet hStateCfgWrite 0 macBroadcast macSrcA 64 1000).2 = [] ∧
    (adin2111_forward_packet hStateCutThru 0 macBroadcast macSrcA 64 1000).2 = [1] := by
  refine ⟨rfl, rfl, rfl, rfl⟩

/-- Claim C2, amended: in the base device model (`adin2111.c`) the claim
holds — the set of ports a received frame is forwarded to is independent of
`cut_through_mode`, which only scales the modelled latency; in the hybrid
model (`adin2111_hybrid.c`), however, the cut-through configuration bit
enables hardware forwarding, so the cut-through setting does change the
produced target port set. -/
theorem claim_C2_theorem (s : DevState) (b : Bool) (port size : Nat) :
    (adin2111_receive { s with cut_through_mode := b } port size).2
      = (adin2111_receive s port size).2 := by
  simp only [adin2111_receive]
  split_ifs <;> rfl

/-- Claim C7: with hardware forwarding (switch mode) on and an empty MAC
table, a unicast frame whose destination is unknown (any address other than
the just-learned source) arriving on port 0 is flooded to port 1 — i.e. to
all present ports except the ingress port of the two-port device. -/
theorem claim_C7_theorem (s : HState) (dst src : Mac) (size : Nat) (now : Int)
    (hfwd : s.hardware_forwarding_enabled = true)
    (hempty : ∀ i, (s.mac_table i).valid = false)
    (hp0 : s.phy_present 0 = true) (hp1 : s.phy_present 1 = true)
    (hbc : is_broadcast_ether_addr dst = false)
    (hmc : is_multicast_ether_addr dst = false)
    (hneq : dst ≠ src) :
    (adin2111_forward_packet s 0 dst src size now).2 = [1] := by
  have hlk : adin2111_lookup_mac (adin2111_learn_mac s src 0 now) dst now
      = (none, adin2111_learn_mac s src 0 now) := by
    have hsd : src ≠ dst := Ne.symm hneq
    unfold adin2111_lookup_mac adin2111_learn_mac
    by_cases hh : mac_hash dst = mac_hash src
    · rw [hh]
      simp [Function.update_same, hsd]
    · simp [Function.update_noteq hh, hempty]
  simp only [adin2111_forward_packet, hfwd, hbc, hmc]
  rw [hlk]
  simp [adin2111_learn_mac, hp1]

/-- Claim C7, witness: an unknown unicast destination on an empty table is
flooded out of port 1. -/
theorem claim_C7_witness :
    (adin2111_forward_packet
      ({ hStateCfgWrite with hardware_forwarding_enabled := true })
      0 macDstB macSrcA 64 1000).2 = [1] :=
  claim_C7_theorem ({ hStateCfgWrite with hardware_forwarding_enabled := true })
    macDstB macSrcA 64 1000 rfl (fun _ => rfl) rfl rfl rfl rfl (by decide)

/-- Claim C8: after an address is learned on some port at time `t0`, a lookup
at any time `t1` more than `MAC_AGE_TIME_NS` (5 minutes) later returns `none`
and lazily invalidates the entry in the table it returns — the lookup is not
read-only. -/
theorem claim_C8_theorem (s : HState) (A : Mac) (p : Nat) (t0 t1 : Int)
    (hage : t1 - t0 > MAC_AGE_TIME_NS) :
    (adin2111_lookup_mac (adin2111_learn_mac s A p t0) A t1).1 = none ∧
    ((adin2111_lookup_mac (adin2111_learn_mac s A p t0) A t1).2.mac_table
        (mac_hash A)).valid = false := by
  simp [adin2111_lookup_mac, adin2111_learn_mac, hage]

/-- Claim C8, witness: an address learned at time 0 is gone — and its entry
invalidated — when looked up one nanosecond past the 5-minute timeout. -/
theorem claim_C8_witness :
    (adin2111_lookup_mac (adin2111_learn_mac hStateCfgWrite macSrcA 0 0)
        macSrcA 300000000001).1 = none ∧
    ((adin2111_lookup_mac (adin2111_learn_mac hStateCfgWrite macSrcA 0 0)
        macSrcA 300000000001).2.mac_table (mac_hash macSrcA)).valid = false :=
  claim_C8_theorem hStateCfgWrite macSrcA 0 0 300000000001 (by norm_num [MAC_AGE_TIME_NS])

/-- Fresh all-zero per-port statistics for the RX handler claims. -/
def rxStats0 : Nat → PortStats := fun _ => ⟨0, 0, 0, 0⟩

/-- A FIFO oracle for runs in which no data read may be issued. -/
def rxFifoUnused : Nat → Except Int (List Nat) := fun _ => .ok []

/-- Claim C3, counterexample.  The claim says an out-of-bounds reported frame
size makes the RX path clear the ready bit and increment `rx_errors`.  In
`adin2111_rx_handler`, a reported size of `1521` (one past
`ADIN2111_MAX_FRAME_SIZE + ADIN2111_FRAME_HEADER_LEN = 1520`) makes the
handler return immediately: it issues no FIFO data read and delivers nothing,
but it also leaves every statistic — `rx_errors` included — untouched and
performs no status-register write at all (the function has no status-write
channel). -/
theorem claim_C3_counterexample :
    (adin2111_rx_handler (.ok 1521) rxFifoUnused true true true (fun _ => true)
        rxStats0).fifo_read = false ∧
    (adin2111_rx_handler (.ok 1521) rxFifoUnused true true true (fun _ => true)
        rxStats0).delivered = none ∧
    (adin2111_rx_handler (.ok 1521) rxFifoUnused true true true (fun _ => true)
        rxStats0).stats 0 = ⟨0, 0, 0, 0⟩ ∧
    (adin2111_rx_handler (.ok 1521) rxFifoUnused true true true (fun _ => true)
        rxStats0).stats 1 = ⟨0, 0, 0, 0⟩ := by
  refine ⟨rfl, rfl, rfl, rfl⟩

/-- Claim C3, amended: whenever the RX handler reads a reported frame size
whose low 11 bits are greater than `max_frame_len + header_len` or smaller
than `header_len`, it issues no data read from the RX FIFO and delivers no
frame — but it returns early with the per-port statistics (in particular
`rx_errors`) unchanged and without touching the ready bit. -/
theorem claim_C3_theorem (rx_fsize : Nat) (fifo : Nat → Except Int (List Nat))
    (kmallocOk skbAllocOk switch_mode : Bool) (ports_present : Nat → Bool)
    (stats : Nat → PortStats)
    (h : rx_fsize &&& 0x7FF < ADIN2111_FRAME_HEADER_LEN ∨
         rx_fsize &&& 0x7FF > ADIN2111_MAX_FRAME_SIZE + ADIN2111_FRAME_HEADER_LEN) :
    adin2111_rx_handler (.ok rx_fsize) fifo kmallocOk skbAllocOk switch_mode
        ports_present stats
      = { stats := stats, fifo_read := false, delivered := none } := by
  unfold adin2111_rx_handler
  by_cases h0 : rx_fsize = 0
  · simp [h0]
  · simp only [h0, if_false]
    rw [if_pos h]

/-- Claim C3, witness: the amended theorem at reported size `1521`. -/
theorem claim_C3_witness :
    adin2111_rx_handler (.ok 1521) rxFifoUnused true true true (fun _ => true)
        rxStats0
      = { stats := rxStats0, fifo_read := false, delivered := none } :=
  claim_C3_theorem 1521 rxFifoUnused true true true (fun _ => true) rxStats0
    (by decide)

/-- The inductive TX ring invariant: the consumer never passes the producer
and the CIRC ring keeps one slot empty, so occupancy is at most
`TX_RING_SIZE - 1`. -/
def RingInv (st : XmitState) : Prop :=
  st.tx_tail ≤ st.tx_head ∧ st.tx_head ≤ st.tx_tail + (TX_RING_SIZE - 1)

lemma ringStep_inv (st : XmitState) (op : RingOp) (h : RingInv st) :
    RingInv (ringStep st op) := by
  obtain ⟨h1, h2⟩ := h
  cases op with
  | xmit len port =>
    dsimp only [ringStep, adin2111_start_xmit]
    split_ifs <;> constructor <;>
      simp_all [CIRC_SPACE, TX_RING_SIZE] <;> omega
  | work sp wr =>
    dsimp only [ringStep, adin2111_tx_worker_step]
    by_cases he : st.tx_tail = st.tx_head
    · simp only [he, if_pos]
      exact ⟨h1, h2⟩
    · rw [if_neg he]
      cases hslot : st.slots (st.tx_tail % TX_RING_SIZE) with
      | none => simp only [hslot]; exact ⟨h1, h2⟩
      | some v =>
        obtain ⟨len, prt⟩ := v
        simp only [hslot]
        split_ifs <;> refine ⟨?_, ?_⟩ <;> (try simp) <;> omega

lemma runRing_inv (ops : List RingOp) : RingInv (runRing ops) := by
  unfold runRing
  suffices h : ∀ st, RingInv st → RingInv (ops.foldl ringStep st) by
    refine h initXmitState ?_
    constructor <;> simp [initXmitState, TX_RING_SIZE]
  induction ops with
  | nil => intro st h; exact h
  | cons op ops ih => intro st h; exact ih _ (ringStep_inv st op h)

/-- Claim C4: for every sequence of TX enqueue (`adin2111_start_xmit`) and
consume (`adin2111_tx_worker` iteration) operations starting from the empty
ring, `tx_tail ≤ tx_head ≤ tx_tail + TX_RING_SIZE` holds at the resulting
observation point — hence, since every prefix of a sequence is a sequence,
at every observation point. -/
theorem claim_C4_theorem (ops : List RingOp) :
    (runRing ops).tx_tail ≤ (runRing ops).tx_head ∧
    (runRing ops).tx_head ≤ (runRing ops).tx_tail + TX_RING_SIZE := by
  have h := runRing_inv ops
  unfold RingInv at h
  unfold TX_RING_SIZE at *
  omega

/-- Claim C6: when the TX ring is full (`CIRC_SPACE < 1`), `adin2111_start_xmit`
returns `NETDEV_TX_BUSY` immediately, issues no transport operation, and
leaves the ring (producer index, consumer index and slots) unchanged — only
the netif queue is stopped. -/
theorem claim_C6_theorem (st : XmitState) (len port : Nat)
    (hlen : len ≤ MAX_FRAME_SIZE)
    (hfull : CIRC_SPACE st.tx_head st.tx_tail TX_RING_SIZE < 1) :
    adin2111_start_xmit st len port
      = (.tx_busy, { st with queue_stopped := true }, []) := by
  unfold adin2111_start_xmit
  rw [if_neg (by omega), if_pos hfull]

/-- A full TX ring (15 of the 16 CIRC slots occupied). -/
def xmitFull : XmitState :=
  { tx_head := 15, tx_tail := 0, slots := fun _ => some (64, 0),
    queue_stopped := false, tx_dropped := 0, tx_errors := 0, tx_packets := 0,
    tx_bytes := 0 }

/-- Claim C6, witness: enqueueing a 100-byte frame into the full ring. -/
theorem claim_C6_witness :
    adin2111_start_xmit xmitFull 100 0
      = (.tx_busy, { xmitFull with queue_stopped := true }, []) :=
  claim_C6_theorem xmitFull 100 0 (by decide) (by decide)

/-- Claim C9: if every poll of the reset register succeeds but always reads
the self-clearing `SWRESET` bit still set (the ready condition is never
observable), the soft-reset poll loop returns `-ETIMEDOUT` and the number of
register polls it issues is bounded by the distance to the deadline — it
never polls indefinitely, because each iteration advances the microsecond
clock by at least the guaranteed `usleep_range` minimum. -/
theorem claim_C9_theorem (readReset : Nat → Except Int Nat) (extra : Nat → Nat)
    (deadline : Nat)
    (h : ∀ j, ∃ v, readReset j = .ok v ∧ v &&& ADIN2111_RESET_SWRESET ≠ 0) :
    ∀ now k, (soft_reset_poll readReset extra deadline now k).1 = -ETIMEDOUT ∧
      (soft_reset_poll readReset extra deadline now k).2 ≤ deadline - now + 1 := by
  suffices H : ∀ d now k, deadline - now ≤ d →
      (soft_reset_poll readReset extra deadline now k).1 = -ETIMEDOUT ∧
      (soft_reset_poll readReset extra deadline now k).2 ≤ deadline - now + 1 by
    intro now k
    exact H (deadline - now) now k le_rfl
  intro d
  induction d with
  | zero =>
    intro now k hle
    obtain ⟨v, hv, hbit⟩ := h k
    unfold soft_reset_poll
    rw [hv]
    simp only [hbit, if_false]
    rw [if_neg (by omega)]
    exact ⟨rfl, by omega⟩
  | succ d ih =>
    intro now k hle
    obtain ⟨v, hv, hbit⟩ := h k
    unfold soft_reset_poll
    rw [hv]
    simp only [hbit, if_false]
    by_cases ht : now + 100 + extra k < deadline
    · rw [if_pos ht]
      obtain ⟨ih1, ih2⟩ := ih (now + 100 + extra k) (k + 1) (by omega)
      exact ⟨ih1, by omega⟩
    · rw [if_neg ht]
      exact ⟨rfl, by omega⟩

/-- Claim C9, witness: a transport that always reads the reset bit still set
drives a 250 µs-deadline poll to `-ETIMEDOUT` within at most 251 polls. -/
theorem claim_C9_witness :
    (soft_reset_poll (fun _ => .ok 1) (fun _ => 0) 250 0 0).1 = -ETIMEDOUT ∧
    (soft_reset_poll (fun _ => .ok 1) (fun _ => 0) 250 0 0).2 ≤ 250 - 0 + 1 :=
  claim_C9_theorem (fun _ => .ok 1) (fun _ => 0) 250
    (fun _ => ⟨1, rfl, by decide⟩) 0 0
